import Mathlib

/-
Verification of the media-import pipeline implemented in
src/windows/views/files_treeview.py (the FilesTreeView widget of the
OpenShot video editor).  The pipeline consists of three pieces of the
source file:

  * is_image   (FilesTreeView.is_image, lines 117-123)
  * add_file   (FilesTreeView.add_file, lines 125-165), the spec's
    importFile operation
  * dropEvent  (FilesTreeView.dropEvent, lines 168-179), the spec's
    importBatch operation

The shallow embedding models the Python code with explicit state passing:

  * The project asset registry (the File query model backing File.get and
    File.save) is a list of AssetRecord values in insertion order;
    File.get(path=...) is a first-match lookup and file.save() appends the
    new record.  By the media-reader contract the "path" field of the
    reader JSON equals the path the clip was opened with, so the record
    built from file_data is keyed by the probed filepath, and
    is_image(file_data) tests that same path string.
  * The external media reader (openshot.Clip, clip.Reader(), Json()) is an
    injected function of type String -> ProbeOut.  The Python code splits
    the probe across the exception boundary: the Clip(filepath)
    constructor on line 139 runs OUTSIDE the try/except that begins on
    line 142, while Reader(), Json(), json.loads, the dictionary accesses
    of the classification chain and file.save() all run inside it.
    ProbeOut.clipRaise models an exception thrown by the constructor;
    ProbeOut.readerRaise models an exception thrown inside the try block
    (no reader found, malformed JSON, missing keys).
  * Python exceptions are explicit values: add_file returns an
    ImportOutcome that is either one of the source's return values
    (None / True / False) or an uncaught exception (ImportOutcome.raised),
    and dropEvent returns the per-item trace together with the exception
    that aborted its for-loop, if any.
  * GUI-only effects (QMessageBox, log.info, event.accept) and the unused
    os.path.split on line 126 are omitted.
-/

/-- Media type assigned to an imported file (the value stored under
file_data["media_type"]). -/
inductive MediaType
  | video
  | audio
  | image
deriving DecidableEq, Repr

/-- One saved project file: the parts of the reader metadata (file_data)
the pipeline reads or writes — the path, the has_video / has_audio flags
and the optional media_type key, which is absent when no branch of the
classification chain fires. -/
structure AssetRecord where
  path : String
  has_video : Bool
  has_audio : Bool
  media_type : Option MediaType
deriving DecidableEq, Repr

/-- The project asset registry, in insertion order. -/
abbrev Registry := List AssetRecord

/-- File.get(path=filepath): first record whose path equals the query. -/
def File.get (reg : Registry) (path : String) : Option AssetRecord :=
  reg.find? (fun r => r.path == path)

/-- Outcome of probing a path with the external media reader. -/
inductive ProbeOut
  | clipRaise
  | readerRaise
  | ok (has_video has_audio : Bool)
deriving DecidableEq, Repr

/-- Python exceptions that can escape the import pipeline. -/
inductive PyExn
  | clipError
  | indexError
deriving DecidableEq, Repr

/-- Python's str.lower(), character by character (ASCII case mapping,
which covers every extension the pipeline tests). -/
def strLower (s : String) : String := ⟨s.data.map Char.toLower⟩

/-- Python's str.endswith(suffix), as a suffix test on the character
list. -/
def strEndsWith (s suffix : String) : Bool := suffix.data.isSuffixOf s.data

/-- is_image (lines 117-123): lowercases file_data["path"] (equal to the
probed filepath) and tests it against the endswith tuple of the source,
which lists ".bmp" twice. -/
def is_image (path0 : String) : Bool :=
  let path := strLower path0
  if strEndsWith path ".jpg" || strEndsWith path ".jpeg" || strEndsWith path ".png" ||
      strEndsWith path ".bmp" || strEndsWith path ".svg" || strEndsWith path ".thm" ||
      strEndsWith path ".gif" || strEndsWith path ".bmp" || strEndsWith path ".pgm" ||
      strEndsWith path ".tif" || strEndsWith path ".tiff" then
    true
  else
    false

/-- The media-type chain of add_file (lines 147-152): the if/elif that
sets file_data["media_type"], leaving it unset (none) when no branch
fires. -/
def determine_media_type (has_video has_audio img : Bool) : Option MediaType :=
  if has_video && !img then some MediaType.video
  else if has_video && img then some MediaType.image
  else if has_audio && !has_video then some MediaType.audio
  else none

/-- Result of one add_file call: the source returns None when the path is
already present (line 136), True after a save (line 158), False from the
except branch (line 165); raised marks an exception add_file does not
catch. -/
inductive ImportOutcome
  | alreadyExists
  | imported
  | rejected
  | raised (e : PyExn)
deriving DecidableEq, Repr

/-- add_file (lines 125-165) with the registry passed explicitly.  The
dedup lookup precedes the probe; a constructor exception on line 139 is
not caught; every exception inside the try block yields False with no
record saved; on success the saved record carries the optional
media_type computed by the classification chain. -/
def add_file (probe : String → ProbeOut) (reg : Registry) (filepath : String) :
    ImportOutcome × Registry :=
  match File.get reg filepath with
  | some _ => (ImportOutcome.alreadyExists, reg)
  | none =>
    match probe filepath with
    | ProbeOut.clipRaise => (ImportOutcome.raised PyExn.clipError, reg)
    | ProbeOut.readerRaise => (ImportOutcome.rejected, reg)
    | ProbeOut.ok hv ha =>
      let mt := determine_media_type hv ha (is_image filepath)
      (ImportOutcome.imported, reg ++ [⟨filepath, hv, ha, mt⟩])

/-- A dropped URI after urlparse(uri.toString()): the scheme and path
components read by dropEvent. -/
structure Uri where
  scheme : String
  path : String
deriving DecidableEq, Repr

/-- Python's s[0], character at index zero.  dropEvent evaluates it only
behind the IndexError guard, so the default value for an empty string is
never observed there. -/
def strHead (s : String) : Char := s.data.headD 'A'

/-- Python's (c in s) membership test on a one-character needle. -/
def strContains (s : String) (c : Char) : Bool := s.data.contains c

/-- Python's s[n:] slice, dropping the first n characters. -/
def strDrop (s : String) (n : Nat) : String := ⟨s.data.drop n⟩

/-- The path normalization on lines 174-175: one leading "/" is stripped
when the path also contains a ":" (a Windows file:///C:/... URI). -/
def normalizePath (filepath : String) : String :=
  if strHead filepath = '/' ∧ strContains filepath ':' then strDrop filepath 1
  else filepath

/-- What happened to one dropped URI inside the dropEvent loop. -/
inductive ItemOutcome
  | skippedNonFile
  | notFound
  | alreadyExists
  | imported
  | rejected
deriving DecidableEq, Repr

/-- One iteration of the dropEvent loop: either the loop continues with a
per-item outcome and the updated registry, or an exception aborts it. -/
inductive StepResult
  | cont (o : ItemOutcome) (reg : Registry)
  | abort (e : PyExn) (reg : Registry)
deriving DecidableEq, Repr

/-- Body of the dropEvent for-loop (lines 170-179) for one URI.  ex and
isf are os.path.exists and os.path.isfile.  Reading filepath[0] on line
174 raises IndexError when the path component is empty; an uncaught
exception from add_file also aborts the loop. -/
def dropStep (probe : String → ProbeOut) (ex isf : String → Bool)
    (u : Uri) (reg : Registry) : StepResult :=
  if u.scheme = "file" then
    if u.path = "" then StepResult.abort PyExn.indexError reg
    else if ex (normalizePath u.path) ∧ isf (normalizePath u.path) then
      match add_file probe reg (normalizePath u.path) with
      | (ImportOutcome.alreadyExists, r) => StepResult.cont ItemOutcome.alreadyExists r
      | (ImportOutcome.imported, r) => StepResult.cont ItemOutcome.imported r
      | (ImportOutcome.rejected, r) => StepResult.cont ItemOutcome.rejected r
      | (ImportOutcome.raised e, r) => StepResult.abort e r
    else StepResult.cont ItemOutcome.notFound reg
  else StepResult.cont ItemOutcome.skippedNonFile reg

/-- dropEvent (lines 168-179): processes the dropped URIs in order,
returning the trace of per-item outcomes, the final registry, and the
exception that aborted the loop, if any. -/
def dropEvent (probe : String → ProbeOut) (ex isf : String → Bool) :
    List Uri → Registry → List ItemOutcome × Registry × Option PyExn
  | [], reg => ([], reg, none)
  | u :: us, reg =>
    match dropStep probe ex isf u reg with
    | StepResult.abort e r => ([], r, some e)
    | StepResult.cont o r =>
      (o :: (dropEvent probe ex isf us r).1, (dropEvent probe ex isf us r).2)

/-- Spec §4.1 classify, written from the spec's four bullet lines, for
comparison with the determine_media_type chain of the source. -/
def classify_spec (hasVideo hasAudio isImageExt : Bool) : Option MediaType :=
  if hasVideo && !isImageExt then some MediaType.video
  else if hasVideo && isImageExt then some MediaType.image
  else if hasAudio && !hasVideo then some MediaType.audio
  else none

/-- Spec §4.1 isImageExtension, written from the spec's words: a
case-insensitive suffix match against the fixed ten-extension set, for
comparison with is_image of the source. -/
def isImageExtension_spec (path : String) : Bool :=
  [".jpg", ".jpeg", ".png", ".bmp", ".svg", ".thm", ".gif", ".pgm",
    ".tif", ".tiff"].any (fun e => strEndsWith (strLower path) e)

/-- An operation sequence over the registry: programmatic single imports
and batches of dropped URIs. -/
inductive Op
  | file (p : String)
  | batch (us : List Uri)

/-- Run one operation, keeping only its registry effect. -/
def runOp (probe : String → ProbeOut) (ex isf : String → Bool)
    (reg : Registry) : Op → Registry
  | Op.file p => (add_file probe reg p).2
  | Op.batch us => (dropEvent probe ex isf us reg).2.1

/-- Run a sequence of operations left to right. -/
def runOps (probe : String → ProbeOut) (ex isf : String → Bool) :
    List Op → Registry → Registry
  | [], reg => reg
  | op :: ops, reg => runOps probe ex isf ops (runOp probe ex isf reg op)

/-- No two records of the registry share a path. -/
def distinctPaths (reg : Registry) : Prop :=
  reg.Pairwise (fun a b => a.path ≠ b.path)

/-- Concrete collaborators used by witnesses and counterexamples. -/
def alwaysTrue : String → Bool := fun _ => true

def alwaysFalse : String → Bool := fun _ => false

def clipRaiseProbe : String → ProbeOut := fun _ => ProbeOut.clipRaise

def readerRaiseProbe : String → ProbeOut := fun _ => ProbeOut.readerRaise

def noAVProbe : String → ProbeOut := fun _ => ProbeOut.ok false false

def avProbe : String → ProbeOut := fun _ => ProbeOut.ok true true

theorem if_bool_id (b : Bool) : (if b then true else false) = b := by
  cases b <;> rfl

/-- C1: the media-type assignment of add_file is exactly the precedence
chain of the spec's classify — video when has_video holds without an
image extension, image when has_video holds with one, audio when
has_audio holds without video, and none in every other case — and it
meets the spec's four test vectors. -/
theorem determine_media_type_is_classify :
    (∀ hv ha img : Bool, determine_media_type hv ha img = classify_spec hv ha img) ∧
    determine_media_type true false false = some MediaType.video ∧
    determine_media_type true false true = some MediaType.image ∧
    determine_media_type false true false = some MediaType.audio ∧
    determine_media_type false false false = none := by
  refine ⟨?_, rfl, rfl, rfl, rfl⟩
  decide

/-- C9: is_image agrees with the spec's isImageExtension on every string
(case-insensitive suffix match against the ten-extension set), and in
particular accepts "a.PNG" and rejects "a.mov". -/
theorem is_image_is_isImageExtension :
    (∀ p : String, is_image p = isImageExtension_spec p) ∧
    is_image "a.PNG" = true ∧ is_image "a.mov" = false := by
  refine ⟨?_, by decide, by decide⟩
  intro p
  simp only [is_image, isImageExtension_spec, List.any_cons, List.any_nil,
    Bool.or_false, if_bool_id]
  cases h : strEndsWith (strLower p) ".bmp" <;> simp [h, Bool.or_assoc]

theorem File.get_append_of_none (l2 : Registry) :
    ∀ (reg : Registry) (p : String), File.get reg p = none →
      File.get (reg ++ l2) p = File.get l2 p := by
  intro reg p
  induction reg with
  | nil => intro _; rfl
  | cons r rs ih =>
    intro h
    simp only [File.get, List.cons_append, List.find?_cons] at h ⊢
    cases hq : (r.path == p) with
    | true => simp [hq] at h
    | false =>
      simp only [hq] at h ⊢
      exact ih h

theorem File.get_none_not_mem {reg : Registry} {p : String}
    (h : File.get reg p = none) : ∀ a ∈ reg, a.path ≠ p := by
  intro a ha
  have h2 := List.find?_eq_none.mp h a ha
  simpa using h2

theorem File.get_singleton_self (r : AssetRecord) (p : String) (h : r.path = p) :
    File.get [r] p = some r := by
  simp [File.get, List.find?_cons, h]

theorem add_file_not_raised (probe : String → ProbeOut) (reg : Registry)
    (p : String) (h : probe p ≠ ProbeOut.clipRaise) :
    ∀ e : PyExn, (add_file probe reg p).1 ≠ ImportOutcome.raised e := by
  intro e
  unfold add_file
  cases hg : File.get reg p with
  | some r => simp
  | none =>
    cases hp : probe p with
    | clipRaise => exact absurd hp h
    | readerRaise => simp
    | ok hv ha => simp

theorem add_file_distinct (probe : String → ProbeOut) (reg : Registry)
    (p : String) (h : distinctPaths reg) :
    distinctPaths (add_file probe reg p).2 := by
  cases hg : File.get reg p with
  | some r => simpa [add_file, hg] using h
  | none =>
    cases hp : probe p with
    | clipRaise => simpa [add_file, hg, hp] using h
    | readerRaise => simpa [add_file, hg, hp] using h
    | ok hv ha =>
      have hne := File.get_none_not_mem hg
      simp only [add_file, hg, hp]
      unfold distinctPaths at h ⊢
      rw [List.pairwise_append]
      refine ⟨h, List.pairwise_singleton _ _, ?_⟩
      intro a ha' b hb
      simp only [List.mem_singleton] at hb
      subst hb
      exact hne a ha'

theorem dropStep_cont_exists (probe : String → ProbeOut) (ex isf : String → Bool)
    (u : Uri) (reg : Registry)
    (hprobe : ∀ q, probe q ≠ ProbeOut.clipRaise)
    (hpath : u.scheme = "file" → u.path ≠ "") :
    ∃ o r, dropStep probe ex isf u reg = StepResult.cont o r := by
  unfold dropStep
  by_cases hs : u.scheme = "file"
  · rw [if_pos hs, if_neg (hpath hs)]
    by_cases hef : ex (normalizePath u.path) = true ∧ isf (normalizePath u.path) = true
    · rw [if_pos hef]
      rcases haf : add_file probe reg (normalizePath u.path) with ⟨o, r⟩
      have hnr := add_file_not_raised probe reg (normalizePath u.path)
        (hprobe (normalizePath u.path))
      cases o with
      | alreadyExists => exact ⟨_, _, rfl⟩
      | imported => exact ⟨_, _, rfl⟩
      | rejected => exact ⟨_, _, rfl⟩
      | raised e => exact absurd (congrArg Prod.fst haf) (hnr e)
    · rw [if_neg hef]
      exact ⟨_, _, rfl⟩
  · rw [if_neg hs]
    exact ⟨_, _, rfl⟩

theorem dropStep_distinct_cont (probe : String → ProbeOut) (ex isf : String → Bool)
    (u : Uri) (reg : Registry) (h : distinctPaths reg) {o : ItemOutcome}
    {r : Registry} (hs : dropStep probe ex isf u reg = StepResult.cont o r) :
    distinctPaths r := by
  unfold dropStep at hs
  split at hs
  · split at hs
    · cases hs
    · split at hs
      · rcases haf : add_file probe reg (normalizePath u.path) with ⟨o2, r2⟩
        rw [haf] at hs
        have hd : distinctPaths r2 := by
          have h2 := add_file_distinct probe reg (normalizePath u.path) h
          rw [haf] at h2
          exact h2
        cases o2 with
        | alreadyExists => cases hs; exact hd
        | imported => cases hs; exact hd
        | rejected => cases hs; exact hd
        | raised e2 => cases hs
      · cases hs; exact h
  · cases hs; exact h

theorem dropStep_distinct_abort (probe : String → ProbeOut) (ex isf : String → Bool)
    (u : Uri) (reg : Registry) (h : distinctPaths reg) {e : PyExn}
    {r : Registry} (hs : dropStep probe ex isf u reg = StepResult.abort e r) :
    distinctPaths r := by
  unfold dropStep at hs
  split at hs
  · split at hs
    · cases hs; exact h
    · split at hs
      · rcases haf : add_file probe reg (normalizePath u.path) with ⟨o2, r2⟩
        rw [haf] at hs
        have hd : distinctPaths r2 := by
          have h2 := add_file_distinct probe reg (normalizePath u.path) h
          rw [haf] at h2
          exact h2
        cases o2 with
        | alreadyExists => cases hs
        | imported => cases hs
        | rejected => cases hs
        | raised e2 => cases hs; exact hd
      · cases hs
  · cases hs

theorem dropEvent_nil (probe : String → ProbeOut) (ex isf : String → Bool)
    (reg : Registry) : dropEvent probe ex isf [] reg = ([], reg, none) := rfl

theorem dropEvent_cons_cont {probe : String → ProbeOut} {ex isf : String → Bool}
    {u : Uri} {reg : Registry} {o : ItemOutcome} {r : Registry}
    (h : dropStep probe ex isf u reg = StepResult.cont o r) (us : List Uri) :
    dropEvent probe ex isf (u :: us) reg =
      (o :: (dropEvent probe ex isf us r).1, (dropEvent probe ex isf us r).2) := by
  conv_lhs => rw [dropEvent]
  rw [h]

theorem dropEvent_cons_abort {probe : String → ProbeOut} {ex isf : String → Bool}
    {u : Uri} {reg : Registry} {e : PyExn} {r : Registry}
    (h : dropStep probe ex isf u reg = StepResult.abort e r) (us : List Uri) :
    dropEvent probe ex isf (u :: us) reg = ([], r, some e) := by
  conv_lhs => rw [dropEvent]
  rw [h]

theorem dropEvent_total (probe : String → ProbeOut) (ex isf : String → Bool)
    (hprobe : ∀ q, probe q ≠ ProbeOut.clipRaise) :
    ∀ (us : List Uri) (reg : Registry),
      (∀ u ∈ us, u.scheme = "file" → u.path ≠ "") →
      (dropEvent probe ex isf us reg).2.2 = none ∧
      (dropEvent probe ex isf us reg).1.length = us.length := by
  intro us
  induction us with
  | nil => intro reg _; exact ⟨rfl, rfl⟩
  | cons u us ih =>
    intro reg h
    obtain ⟨o, r, hstep⟩ := dropStep_cont_exists probe ex isf u reg hprobe
      (h u (by simp))
    rw [dropEvent_cons_cont hstep us]
    have h2 := ih r (fun v hv => h v (by simp [hv]))
    exact ⟨h2.1, by simp [h2.2]⟩

theorem dropEvent_distinct (probe : String → ProbeOut) (ex isf : String → Bool) :
    ∀ (us : List Uri) (reg : Registry), distinctPaths reg →
      distinctPaths (dropEvent probe ex isf us reg).2.1 := by
  intro us
  induction us with
  | nil => intro reg h; exact h
  | cons u us ih =>
    intro reg h
    cases hs : dropStep probe ex isf u reg with
    | abort e r =>
      rw [dropEvent_cons_abort hs us]
      exact dropStep_distinct_abort probe ex isf u reg h hs
    | cont o r =>
      rw [dropEvent_cons_cont hs us]
      exact ih r (dropStep_distinct_cont probe ex isf u reg h hs)

def regA : Registry := [⟨"a.mp4", true, true, some MediaType.video⟩]

/-- C4: a path already present in the registry makes add_file return the
already-exists outcome with the registry untouched, whichever probe is
supplied (so nothing is probed and nothing is inserted); and a second
add_file on the same path leaves the registry exactly as the first call
left it. -/
theorem add_file_dedup_idempotent (probe probe2 : String → ProbeOut)
    (reg : Registry) (p : String) :
    ((File.get reg p).isSome = true →
      add_file probe reg p = (ImportOutcome.alreadyExists, reg) ∧
      add_file probe2 reg p = (ImportOutcome.alreadyExists, reg)) ∧
    (add_file probe (add_file probe reg p).2 p).2 = (add_file probe reg p).2 := by
  constructor
  · intro h
    cases hg : File.get reg p with
    | none => rw [hg] at h; simp at h
    | some r => exact ⟨by simp [add_file, hg], by simp [add_file, hg]⟩
  · cases hg : File.get reg p with
    | some r => simp [add_file, hg]
    | none =>
      cases hp : probe p with
      | clipRaise => simp [add_file, hg, hp]
      | readerRaise => simp [add_file, hg, hp]
      | ok hv ha =>
        have h1 : add_file probe reg p =
            (ImportOutcome.imported,
              reg ++ [⟨p, hv, ha, determine_media_type hv ha (is_image p)⟩]) := by
          simp [add_file, hg, hp]
        have h2 : File.get
            (reg ++ [⟨p, hv, ha, determine_media_type hv ha (is_image p)⟩]) p =
            some ⟨p, hv, ha, determine_media_type hv ha (is_image p)⟩ := by
          rw [File.get_append_of_none _ reg p hg]
          exact File.get_singleton_self _ _ rfl
        rw [h1]
        simp [add_file, h2]

/-- Witness for the C4 theorem at a concrete registry and path. -/
theorem add_file_dedup_idempotent_witness :
    add_file avProbe regA "a.mp4" = (ImportOutcome.alreadyExists, regA) ∧
    (add_file avProbe (add_file avProbe regA "a.mp4").2 "a.mp4").2 =
      (add_file avProbe regA "a.mp4").2 := by
  have h := add_file_dedup_idempotent avProbe noAVProbe regA "a.mp4"
  exact ⟨(h.1 (by decide)).1, h.2⟩

/-- C5: when the path is not yet registered and the probe fails inside
the guarded region (the reader cannot open or decode the file), add_file
returns the rejected outcome and the registry is unchanged: no partial
record is created. -/
theorem add_file_unreadable_rejected (probe : String → ProbeOut)
    (reg : Registry) (p : String) (hg : File.get reg p = none)
    (hp : probe p = ProbeOut.readerRaise) :
    add_file probe reg p = (ImportOutcome.rejected, reg) := by
  simp [add_file, hg, hp]

/-- Witness for the C5 theorem at a concrete probe and path. -/
theorem add_file_unreadable_rejected_witness :
    add_file readerRaiseProbe [] "x.bin" = (ImportOutcome.rejected, []) :=
  add_file_unreadable_rejected readerRaiseProbe [] "x.bin" rfl rfl

/-- C2 counterexample: a successfully probed file with neither video nor
audio is not rejected as unclassifiable — add_file saves a record with no
media type and reports success, so the registry grows. -/
theorem add_file_unclassifiable_cex :
    add_file noAVProbe [] "file.dat" =
      (ImportOutcome.imported, [(⟨"file.dat", false, false, none⟩ : AssetRecord)]) ∧
    ImportOutcome.imported ≠ ImportOutcome.rejected ∧
    ([(⟨"file.dat", false, false, none⟩ : AssetRecord)] : Registry) ≠ [] :=
  ⟨rfl, by decide, by decide⟩

/-- C2 amended: when the dedup lookup misses, the probe succeeds, and the
classification chain yields no media type, add_file still saves the
record — with its media_type unset — and returns the success outcome;
the code has no unclassifiable rejection. -/
theorem add_file_unclassifiable_saves (probe : String → ProbeOut)
    (reg : Registry) (p : String) (hv ha : Bool)
    (hg : File.get reg p = none) (hp : probe p = ProbeOut.ok hv ha)
    (hc : determine_media_type hv ha (is_image p) = none) :
    add_file probe reg p =
      (ImportOutcome.imported, reg ++ [⟨p, hv, ha, none⟩]) := by
  simp [add_file, hg, hp, hc]

/-- Witness for the amended C2 theorem at a concrete probe and path. -/
theorem add_file_unclassifiable_saves_witness :
    add_file noAVProbe [] "f.bin" =
      (ImportOutcome.imported, [] ++ [⟨"f.bin", false, false, none⟩]) :=
  add_file_unclassifiable_saves noAVProbe [] "f.bin" false false rfl rfl rfl

/-- C3 counterexample: a probe that raises at clip construction escapes
add_file as an uncaught exception rather than a result value, and the
same exception aborts dropEvent. -/
theorem add_file_raise_cex :
    add_file clipRaiseProbe [] "a.mp4" =
      (ImportOutcome.raised PyExn.clipError, []) ∧
    dropEvent clipRaiseProbe alwaysTrue alwaysTrue
      [{ scheme := "file", path := "c.mp4" }] [] =
      ([], [], some PyExn.clipError) :=
  ⟨rfl, rfl⟩

/-- C3 amended: provided the clip constructor itself does not raise,
add_file always returns a result value (never an uncaught exception), and
dropEvent finishes without a pending exception whenever every file-scheme
URI also has a non-empty path component; an exception at clip
construction, which the source leaves outside its try block, escapes
both. -/
theorem add_file_dropEvent_no_raise (probe : String → ProbeOut)
    (ex isf : String → Bool) (hprobe : ∀ q, probe q ≠ ProbeOut.clipRaise) :
    (∀ (reg : Registry) (p : String) (e : PyExn),
      (add_file probe reg p).1 ≠ ImportOutcome.raised e) ∧
    (∀ (us : List Uri) (reg : Registry),
      (∀ u ∈ us, u.scheme = "file" → u.path ≠ "") →
      (dropEvent probe ex isf us reg).2.2 = none) := by
  refine ⟨fun reg p e => add_file_not_raised probe reg p (hprobe p) e, ?_⟩
  intro us reg h
  exact (dropEvent_total probe ex isf hprobe us reg h).1

/-- Witness for the amended C3 theorem at a concrete probe and batch. -/
theorem add_file_dropEvent_no_raise_witness :
    (add_file noAVProbe [] "w.mp4").1 ≠ ImportOutcome.raised PyExn.clipError ∧
    (dropEvent noAVProbe alwaysTrue alwaysTrue
      [{ scheme := "file", path := "w.mp4" }] []).2.2 = none := by
  have h := add_file_dropEvent_no_raise noAVProbe alwaysTrue alwaysTrue
    (fun q hq => ProbeOut.noConfusion hq)
  refine ⟨h.1 [] "w.mp4" PyExn.clipError,
    h.2 [{ scheme := "file", path := "w.mp4" }] [] ?_⟩
  intro u hu
  simp only [List.mem_singleton] at hu
  subst hu
  intro _
  decide

/-- C6 counterexample: with a probe whose clip constructor raises, the
first dropped URI aborts the whole batch — the loop yields no outcome for
either of the two dropped files, so the second is never processed. -/
theorem dropEvent_abort_cex :
    dropEvent clipRaiseProbe alwaysTrue alwaysTrue
      [{ scheme := "file", path := "a.mp4" },
        { scheme := "file", path := "b.mp4" }] [] =
      ([], [], some PyExn.clipError) ∧
    ([] : List ItemOutcome).length ≠
      [({ scheme := "file", path := "a.mp4" } : Uri),
        { scheme := "file", path := "b.mp4" }].length :=
  ⟨rfl, by decide⟩

/-- C6 amended: when no uncaught exception occurs (the probe never raises
at clip construction and every file-scheme URI has a non-empty path),
dropEvent runs to completion with one traced outcome per dropped URI in
input order; and an item that fails the existence check contributes a
not-found outcome while the remaining items are processed exactly as if
it were absent.  An item that raises, by contrast, aborts the loop (see
the counterexample). -/
theorem dropEvent_in_order_no_abort (probe : String → ProbeOut)
    (ex isf : String → Bool) (hprobe : ∀ q, probe q ≠ ProbeOut.clipRaise) :
    (∀ (us : List Uri) (reg : Registry),
      (∀ u ∈ us, u.scheme = "file" → u.path ≠ "") →
      (dropEvent probe ex isf us reg).2.2 = none ∧
      (dropEvent probe ex isf us reg).1.length = us.length) ∧
    (∀ (u : Uri) (us : List Uri) (reg : Registry),
      u.scheme = "file" → u.path ≠ "" →
      ¬(ex (normalizePath u.path) = true ∧ isf (normalizePath u.path) = true) →
      dropEvent probe ex isf (u :: us) reg =
        (ItemOutcome.notFound :: (dropEvent probe ex isf us reg).1,
          (dropEvent probe ex isf us reg).2)) := by
  refine ⟨fun us reg h => dropEvent_total probe ex isf hprobe us reg h, ?_⟩
  intro u us reg hs hp hef
  have hstep : dropStep probe ex isf u reg =
      StepResult.cont ItemOutcome.notFound reg := by
    unfold dropStep
    rw [if_pos hs, if_neg hp, if_neg hef]
  exact dropEvent_cons_cont hstep us

/-- Witness for the amended C6 theorem on concrete batches. -/
theorem dropEvent_in_order_no_abort_witness :
    ((dropEvent noAVProbe alwaysFalse alwaysTrue
        [{ scheme := "file", path := "v.mp4" }] []).2.2 = none ∧
      (dropEvent noAVProbe alwaysFalse alwaysTrue
        [{ scheme := "file", path := "v.mp4" }] []).1.length =
        [({ scheme := "file", path := "v.mp4" } : Uri)].length) ∧
    dropEvent noAVProbe alwaysFalse alwaysTrue
      ({ scheme := "file", path := "v.mp4" } ::
        [{ scheme := "file", path := "w.png" }]) [] =
      (ItemOutcome.notFound :: (dropEvent noAVProbe alwaysFalse alwaysTrue
          [{ scheme := "file", path := "w.png" }] []).1,
        (dropEvent noAVProbe alwaysFalse alwaysTrue
          [{ scheme := "file", path := "w.png" }] []).2) := by
  have h := dropEvent_in_order_no_abort noAVProbe alwaysFalse alwaysTrue
    (fun q hq => ProbeOut.noConfusion hq)
  refine ⟨h.1 [{ scheme := "file", path := "v.mp4" }] [] ?_,
    h.2 { scheme := "file", path := "v.mp4" }
      [{ scheme := "file", path := "w.png" }] [] rfl (by decide) ?_⟩
  · intro u hu
    simp only [List.mem_singleton] at hu
    subst hu
    intro _
    decide
  · intro hx
    exact absurd hx.1 (by decide)

/-- C7: a dropped file URI with a non-empty path is normalized by
stripping one leading separator exactly when the path contains a colon;
and when the normalized path fails the exists/regular-file check the item
yields a not-found outcome with the registry unchanged and the probe is
never consulted. -/
theorem dropStep_normalize_guard (probe probe2 : String → ProbeOut)
    (ex isf : String → Bool) (u : Uri) (reg : Registry)
    (hs : u.scheme = "file") (hp : u.path ≠ "") :
    (strContains u.path ':' = false → normalizePath u.path = u.path) ∧
    (strHead u.path = '/' → strContains u.path ':' = true →
      normalizePath u.path = strDrop u.path 1) ∧
    (strHead u.path ≠ '/' → normalizePath u.path = u.path) ∧
    (¬(ex (normalizePath u.path) = true ∧ isf (normalizePath u.path) = true) →
      dropStep probe ex isf u reg = StepResult.cont ItemOutcome.notFound reg ∧
      dropStep probe ex isf u reg = dropStep probe2 ex isf u reg) := by
  refine ⟨?_, ?_, ?_, ?_⟩
  · intro hc
    unfold normalizePath
    rw [if_neg]
    rintro ⟨h1, h2⟩
    rw [hc] at h2
    exact absurd h2 (by simp)
  · intro h1 h2
    unfold normalizePath
    rw [if_pos ⟨h1, h2⟩]
  · intro h1
    unfold normalizePath
    rw [if_neg]
    rintro ⟨ha, hb⟩
    exact h1 ha
  · intro hef
    have hstep : dropStep probe ex isf u reg =
        StepResult.cont ItemOutcome.notFound reg := by
      unfold dropStep
      rw [if_pos hs, if_neg hp, if_neg hef]
    have hstep2 : dropStep probe2 ex isf u reg =
        StepResult.cont ItemOutcome.notFound reg := by
      unfold dropStep
      rw [if_pos hs, if_neg hp, if_neg hef]
    exact ⟨hstep, hstep.trans hstep2.symm⟩

/-- Witness for the C7 theorem at a Windows-style URI path. -/
theorem dropStep_normalize_guard_witness :
    normalizePath "/C:/x.png" = "C:/x.png" ∧
    dropStep noAVProbe alwaysFalse alwaysTrue
      { scheme := "file", path := "/C:/x.png" } [] =
      StepResult.cont ItemOutcome.notFound [] ∧
    dropStep noAVProbe alwaysFalse alwaysTrue
      { scheme := "file", path := "/C:/x.png" } [] =
      dropStep avProbe alwaysFalse alwaysTrue
      { scheme := "file", path := "/C:/x.png" } [] := by
  have h := dropStep_normalize_guard noAVProbe avProbe alwaysFalse alwaysTrue
    { scheme := "file", path := "/C:/x.png" } [] rfl (by decide)
  have hef : ¬(alwaysFalse (normalizePath "/C:/x.png") = true ∧
      alwaysTrue (normalizePath "/C:/x.png") = true) := by
    intro hx
    exact absurd hx.1 (by decide)
  obtain ⟨hn, hp2⟩ := h.2.2.2 hef
  refine ⟨?_, hn, hp2⟩
  have h2 := h.2.1 (by decide) (by decide)
  exact h2.trans (by decide)

/-- C8: starting from a registry whose record paths are pairwise
distinct, any sequence of single imports and drop batches preserves the
invariant that no two records of the registry share a path. -/
theorem registry_paths_unique (probe : String → ProbeOut)
    (ex isf : String → Bool) :
    ∀ (ops : List Op) (reg : Registry), distinctPaths reg →
      distinctPaths (runOps probe ex isf ops reg) := by
  intro ops
  induction ops with
  | nil => intro reg h; exact h
  | cons op ops ih =>
    intro reg h
    cases op with
    | file p => exact ih _ (add_file_distinct probe reg p h)
    | batch us => exact ih _ (dropEvent_distinct probe ex isf us reg h)

/-- Witness for the C8 theorem on a concrete operation sequence. -/
theorem registry_paths_unique_witness :
    distinctPaths (runOps avProbe alwaysTrue alwaysTrue
      [Op.file "a.mp4",
        Op.batch [{ scheme := "file", path := "a.mp4" },
          { scheme := "file", path := "b.png" }]] []) :=
  registry_paths_unique avProbe alwaysTrue alwaysTrue _ [] List.Pairwise.nil

/-- C10: the drop handler reads filepath[0] before any emptiness check,
so a file URI whose path component is empty raises IndexError and aborts
the loop with the registry unchanged, whatever follows in the batch. -/
theorem dropEvent_empty_path_raises (probe : String → ProbeOut)
    (ex isf : String → Bool) (u : Uri) (us : List Uri) (reg : Registry)
    (hs : u.scheme = "file") (hp : u.path = "") :
    dropEvent probe ex isf (u :: us) reg = ([], reg, some PyExn.indexError) := by
  have hstep : dropStep probe ex isf u reg =
      StepResult.abort PyExn.indexError reg := by
    unfold dropStep
    rw [if_pos hs, if_pos hp]
  exact dropEvent_cons_abort hstep us

/-- Witness for the C10 theorem at a concrete empty-path file URI. -/
theorem dropEvent_empty_path_raises_witness :
    dropEvent noAVProbe alwaysTrue alwaysTrue
      [{ scheme := "file", path := "" }] [] =
      ([], [], some PyExn.indexError) :=
  dropEvent_empty_path_raises noAVProbe alwaysTrue alwaysTrue
    { scheme := "file", path := "" } [] [] rfl rfl
